import Mathlib

/-!
Shallow embedding of the `walletwise` MCP dispatch server
(`src/mcp-server.ts`) and proofs of its specified properties.

The dispatcher receives HTTP requests, negotiates CORS, decodes a JSON
request envelope, routes it to the capabilities handler or the tool-call
handler, and serializes the outcome.  We model JSON values structurally,
model `JSON.parse` outcomes as `Except String Json` (the `String` being
the parse-failure message available only server-side), and instrument the
dispatcher with the list of tool names whose `execute` capability was
invoked while handling the request.
-/

namespace Walletwise

/-- Structured data values (the result of `JSON.parse`).  JavaScript
numbers are modelled as integers; no claim depends on numeric formatting. -/
inductive Json where
  | null
  | bool (b : Bool)
  | num (n : Int)
  | str (s : String)
  | arr (elems : List Json)
  | obj (fields : List (String × Json))

/-- Last-binding-wins field lookup, matching how `JSON.parse` materialises
duplicate keys in a JavaScript object. -/
def objGet (fields : List (String × Json)) (k : String) : Option Json :=
  fields.foldl (fun acc kv => if kv.1 = k then some kv.2 else acc) none

/-- Outcome of a JavaScript property access `x.k`. -/
inductive JsAccess where
  | thrown
  | missing
  | val (v : Json)

/-- Property access on a parsed value: throws a `TypeError` on `null`,
yields the field on objects, and `undefined` on every other value. -/
def Json.getField : Json → String → JsAccess
  | .null, _ => .thrown
  | .obj fields, k =>
      match objGet fields k with
      | some v => .val v
      | none => .missing
  | _, _ => .missing

/-- Property access returning `undefined` (`none`) when no field exists;
used on the tool-call path, which is only reached for object envelopes. -/
def Json.getProp : Json → String → Option Json
  | .obj fields, k => objGet fields k
  | _, _ => none

/-- JavaScript string coercion of a value, as produced by a template
literal.  Inside an array, `null` elements render as the empty string,
matching `Array.prototype.toString`. -/
def jsToStr (inArray : Bool) : Json → String
  | .null => if inArray then "" else "null"
  | .bool true => "true"
  | .bool false => "false"
  | .num n => toString n
  | .str s => s
  | .obj _ => "[object Object]"
  | .arr elems =>
      String.intercalate ","
        (elems.attach.map (fun e => jsToStr true e.1))
decreasing_by
  simp_wf
  have := List.sizeOf_lt_of_mem e.2
  omega

/-- Top-level string coercion (template-literal context). -/
def jsToString (v : Json) : String := jsToStr false v

/-- Coercion of a possibly-`undefined` value (`none` is `undefined`). -/
def jsUndefToString : Option Json → String
  | none => "undefined"
  | some v => jsToString v

/-- `v === s` for a string literal `s`: JavaScript strict equality of a
value against a string. -/
def isStr (v : Json) (s : String) : Bool :=
  match v with
  | .str t => t == s
  | _ => false

/-- JavaScript strict equality `s === v` between a string `s` and a
possibly-`undefined` value `v`: true exactly when `v` is the same string. -/
def jsStrEq (s : String) (v : Option Json) : Bool :=
  match v with
  | some (.str t) => s == t
  | _ => false

/-- A value thrown by a tool's `execute`: either an `Error` instance
(carrying its `message`) or an arbitrary non-`Error` value. -/
inductive JsFailure where
  | jsError (message : String)
  | jsValue (v : Json)

/-- `error instanceof Error ? error.message : String(error)`. -/
def failureText : JsFailure → String
  | .jsError m => m
  | .jsValue v => jsToString v

/-- A registered tool (`McpTool` in `mcp-server.ts`).  `execute` receives
the envelope's `parameters` field, which may be absent (`none` models
`undefined`), and either resolves with a value or rejects with a failure. -/
structure McpTool where
  name : String
  description : String
  parameters : Json
  execute : Option Json → Except JsFailure Json

/-- Server configuration (`McpServerConfig`); unused by the dispatcher. -/
structure McpServerConfig where
  openaiApiKey : String
  rpcUrl : String
  solanaPrivateKey : String

/-- Options to `createMcpServer`. -/
structure McpServerOptions where
  tools : List McpTool
  config : McpServerConfig

/-- Mutable response state while a handler runs (`ServerResponse`). -/
structure ResState where
  statusCode : Nat
  headers : List (String × String)

/-- `res.setHeader(k, v)`. -/
def setHeader (r : ResState) (k v : String) : ResState :=
  { r with headers := r.headers ++ [(k, v)] }

/-- A finished HTTP response: status, headers, and the structured body
passed to `res.end` (`none` when `res.end()` is called with no body). -/
structure HttpResponse where
  statusCode : Nat
  headers : List (String × String)
  body : Option Json

/-- `res.end(JSON.stringify(b))` / `res.end()`. -/
def endRes (r : ResState) (b : Option Json) : HttpResponse :=
  ⟨r.statusCode, r.headers, b⟩

/-- The fresh `ServerResponse` handed to the dispatcher (Node's default
status is 200, no headers set). -/
def initRes : ResState := ⟨200, []⟩

/-- The MCP protocol version advertised by the server. -/
def PROTOCOL_VERSION : String := "0.1"

/-- Projection of a tool to its advertised descriptor:
`{name, description, parameters}`; `execute` is never serialized. -/
def toolDescriptor (t : McpTool) : Json :=
  .obj [("name", .str t.name), ("description", .str t.description),
        ("parameters", t.parameters)]

/-- `handleCapabilitiesRequest`: respond 200 with the capability document. -/
def handleCapabilitiesRequest (tools : List McpTool) (res : ResState) :
    HttpResponse :=
  let toolSchemas := tools.map toolDescriptor
  let response : Json :=
    .obj [("protocol_version", .str PROTOCOL_VERSION),
          ("capabilities", .obj [("tools", .arr toolSchemas)])]
  endRes (setHeader { res with statusCode := 200 }
    "Content-Type" "application/json") (some response)

/-- `handleToolCallRequest`: look the tool up by `tool_name`, execute it,
and normalize the outcome.  The second component records the names of
tools whose `execute` was invoked. -/
def handleToolCallRequest (tools : List McpTool) (request : Json)
    (res : ResState) : HttpResponse × List String :=
  let tool_name := request.getProp "tool_name"
  let parameters := request.getProp "parameters"
  match tools.find? (fun t => jsStrEq t.name tool_name) with
  | none =>
      (endRes { res with statusCode := 404 }
        (some (.obj [("error",
          .str ("Tool not found: " ++ jsUndefToString tool_name))])), [])
  | some tool =>
      match tool.execute parameters with
      | .ok result =>
          (endRes (setHeader { res with statusCode := 200 }
            "Content-Type" "application/json")
            (some (.obj [("result", result)])), [tool.name])
      | .error f =>
          (endRes { res with statusCode := 500 }
            (some (.obj [("error",
              .str ("Error executing tool " ++ jsUndefToString tool_name
                    ++ ": " ++ failureText f))])), [tool.name])

/-- `handleRequest`: the per-request state machine — CORS preamble,
method gate, envelope decode, type routing.  `body` is the outcome of
reading and `JSON.parse`-ing the request body (`Except.error msg` models
a parse failure with server-side message `msg`). -/
def handleRequest (tools : List McpTool) (method : String)
    (body : Except String Json) : HttpResponse × List String :=
  let res := initRes
  let res := setHeader res "Access-Control-Allow-Origin" "*"
  let res := setHeader res "Access-Control-Allow-Methods" "GET, POST, OPTIONS"
  let res := setHeader res "Access-Control-Allow-Headers" "Content-Type"
  if method = "OPTIONS" then
    (endRes { res with statusCode := 204 } none, [])
  else if method ≠ "POST" then
    (endRes { res with statusCode := 405 }
      (some (.obj [("error", .str "Method not allowed")])), [])
  else
    match body with
    | .error _ =>
        (endRes { res with statusCode := 400 }
          (some (.obj [("error", .str "Invalid request")])), [])
    | .ok request =>
        match request.getField "type" with
        | .thrown =>
            (endRes { res with statusCode := 400 }
              (some (.obj [("error", .str "Invalid request")])), [])
        | .missing =>
            (endRes { res with statusCode := 400 }
              (some (.obj [("error",
                .str ("Unknown request type: " ++ jsUndefToString none))])), [])
        | .val v =>
            if isStr v "capabilities" then
              (handleCapabilitiesRequest tools res, [])
            else if isStr v "tool_call" then
              handleToolCallRequest tools request res
            else
              (endRes { res with statusCode := 400 }
                (some (.obj [("error",
                  .str ("Unknown request type: " ++ jsToString v))])), [])

/-- The server value returned by `createMcpServer`: it closes over the
tool list and configuration supplied at construction and exposes
`handleRequest`.  No field is ever reassigned by any handler. -/
structure McpServer where
  tools : List McpTool
  config : McpServerConfig

/-- `createMcpServer({tools, config})`: construction performs no
validation (in particular it never rejects duplicate tool names). -/
def createMcpServer (opts : McpServerOptions) : McpServer :=
  ⟨opts.tools, opts.config⟩

/-- A transport-level request: the method string and the outcome of
reading and parsing the body. -/
structure HttpRequest where
  method : String
  body : Except String Json

/-- One dispatch step: handle a request against the server's state and
return the response together with the server state afterwards.  The
handlers close over the registry and never reassign it, so the state
returned is the state received. -/
def McpServer.step (srv : McpServer) (r : HttpRequest) :
    (HttpResponse × List String) × McpServer :=
  (handleRequest srv.tools r.method r.body, srv)

/-- Handle a sequence of requests in order, threading the server state
from each request to the next. -/
def serveRequests : McpServer → List HttpRequest →
    List (HttpResponse × List String) × McpServer
  | srv, [] => ([], srv)
  | srv, r :: rs =>
      let (out, srv2) := srv.step r
      let (outs, srvF) := serveRequests srv2 rs
      (out :: outs, srvF)

/-! ### Concrete sample data used by witness theorems -/

/-- A sample tool that echoes its parameter object back as the result. -/
def echoTool : McpTool where
  name := "echo"
  description := "echoes its input"
  parameters := .obj [("type", .str "object")]
  execute := fun p => .ok (p.getD .null)

/-- A sample tool whose `execute` always rejects with an `Error`. -/
def failTool : McpTool where
  name := "boom"
  description := "always fails"
  parameters := .obj [("type", .str "object")]
  execute := fun _ => .error (.jsError "exploded")

/-- A second tool named `echo` with a distinguishable result, used to
exercise duplicate-name dispatch. -/
def echoTool2 : McpTool where
  name := "echo"
  description := "shadowed duplicate"
  parameters := .obj []
  execute := fun _ => .ok (.str "from the duplicate")

/-- A sample configuration. -/
def sampleConfig : McpServerConfig :=
  ⟨"key", "https://api.mainnet-beta.solana.com", "secret"⟩

/-- A tool-call envelope for `echo` with parameters `{x: 1}`. -/
def callEchoReq : Json :=
  .obj [("type", .str "tool_call"), ("tool_name", .str "echo"),
        ("parameters", .obj [("x", .num 1)])]

/-- A tool-call envelope for the failing tool `boom`. -/
def callBoomReq : Json :=
  .obj [("type", .str "tool_call"), ("tool_name", .str "boom"),
        ("parameters", .obj [])]

/-- A tool-call envelope naming an unregistered tool. -/
def callMissingReq : Json :=
  .obj [("type", .str "tool_call"), ("tool_name", .str "missing")]

/-- The headers set by the CORS preamble on every request. -/
def corsHeaders : List (String × String) :=
  [("Access-Control-Allow-Origin", "*"),
   ("Access-Control-Allow-Methods", "GET, POST, OPTIONS"),
   ("Access-Control-Allow-Headers", "Content-Type")]

/-! ### Helper lemmas -/

/-- Strict equality of a value against a string literal is false exactly
when the value is not that string. -/
theorem isStr_eq_false {v : Json} {s : String} (h : v ≠ Json.str s) :
    isStr v s = false := by
  cases v <;> simp_all [isStr]

/-- The first element of a list satisfying a predicate is found by
`find?` even when later elements also satisfy it. -/
theorem find_first_match {α : Type} (p : α → Bool) (pre post : List α)
    (t : α) (hpre : ∀ u ∈ pre, p u = false) (hpt : p t = true) :
    (pre ++ t :: post).find? p = some t := by
  induction pre with
  | nil =>
      rw [List.nil_append]
      exact List.find?_cons_of_pos post hpt
  | cons a as ih =>
      rw [List.cons_append, List.find?_cons_of_neg]
      · exact ih fun u hu => hpre u (List.mem_cons_of_mem a hu)
      · simp [hpre a (List.mem_cons_self a as)]

/-! ### Claim theorems -/

/-- Claim C8: an `OPTIONS` request yields status 204 with an empty body,
regardless of the request body, after the CORS preamble set the three
cross-origin headers (any origin; `GET, POST, OPTIONS`; `Content-Type`). -/
theorem options_yields_204 (tools : List McpTool)
    (body : Except String Json) :
    handleRequest tools "OPTIONS" body =
      (⟨204, corsHeaders, none⟩, []) := rfl

/-- Claim C7: a request whose method is neither `POST` nor `OPTIONS`
yields status 405 with body `{"error": "Method not allowed"}`; the
response is the same for every body (so it is produced before the body
is read or parsed) and no tool's `execute` is invoked (empty log). -/
theorem non_post_yields_405 (tools : List McpTool) (method : String)
    (body : Except String Json)
    (h1 : method ≠ "OPTIONS") (h2 : method ≠ "POST") :
    handleRequest tools method body =
      (⟨405, corsHeaders,
        some (.obj [("error", .str "Method not allowed")])⟩, []) := by
  simp [handleRequest, h1, h2, corsHeaders, endRes, setHeader, initRes]

/-- Claim C7 witness: a concrete `GET` request gets the fixed 405. -/
theorem non_post_yields_405_witness :
    handleRequest [echoTool] "GET" (.ok (.obj [])) =
      (⟨405, corsHeaders,
        some (.obj [("error", .str "Method not allowed")])⟩, []) :=
  non_post_yields_405 [echoTool] "GET" (.ok (.obj []))
    (by decide) (by decide)

/-- Claim C5: a `POST` whose body fails to parse yields status 400 with
the fixed generic body `{"error": "Invalid request"}`; the response is a
constant independent of the parse-failure message `msg`, so that message
is never included in the response body. -/
theorem invalid_body_yields_400 (tools : List McpTool) (msg : String) :
    handleRequest tools "POST" (Except.error msg) =
      (⟨400, corsHeaders,
        some (.obj [("error", .str "Invalid request")])⟩, []) := rfl

/-- Claim C2: a capabilities request yields status 200 with
`{protocol_version: "0.1", capabilities: {tools: [...]}}` holding exactly
one descriptor per registered tool, in registration order; each
descriptor carries the tool's `parameters` schema unchanged and has no
`execute` field. -/
theorem capabilities_request_ok (tools : List McpTool) (request : Json)
    (h : request.getField "type" = JsAccess.val (.str "capabilities")) :
    handleRequest tools "POST" (.ok request) =
      (⟨200, corsHeaders ++ [("Content-Type", "application/json")],
        some (.obj [("protocol_version", .str "0.1"),
          ("capabilities",
            .obj [("tools", .arr (tools.map toolDescriptor))])])⟩, []) ∧
    (tools.map toolDescriptor).length = tools.length ∧
    ∀ t ∈ tools,
      (toolDescriptor t).getProp "name" = some (.str t.name) ∧
      (toolDescriptor t).getProp "description" = some (.str t.description) ∧
      (toolDescriptor t).getProp "parameters" = some t.parameters ∧
      (toolDescriptor t).getProp "execute" = none := by
  refine ⟨?_, by simp, fun t ht => ⟨rfl, rfl, rfl, rfl⟩⟩
  simp [handleRequest, h, handleCapabilitiesRequest, isStr,
    PROTOCOL_VERSION, corsHeaders, endRes, setHeader, initRes]

/-- Claim C2 witness: the capabilities response for the one-tool registry. -/
theorem capabilities_request_ok_witness :
    handleRequest [echoTool] "POST"
        (.ok (.obj [("type", .str "capabilities")])) =
      (⟨200, corsHeaders ++ [("Content-Type", "application/json")],
        some (.obj [("protocol_version", .str "0.1"),
          ("capabilities",
            .obj [("tools",
              .arr ([echoTool].map toolDescriptor))])])⟩, []) :=
  (capabilities_request_ok [echoTool]
    (.obj [("type", .str "capabilities")]) rfl).1

/-- Claim C1: a tool-call request whose `tool_name` matches a registered
tool and whose `execute` resolves with `v` yields status 200 and body
`{result: v}` with `v` untransformed; exactly that tool was executed. -/
theorem tool_call_success_ok (tools : List McpTool) (request : Json)
    (tool : McpTool) (p : Option Json) (v : Json)
    (hty : request.getField "type" = JsAccess.val (.str "tool_call"))
    (hfind : tools.find?
      (fun t => jsStrEq t.name (request.getProp "tool_name")) = some tool)
    (hp : request.getProp "parameters" = p)
    (hexec : tool.execute p = Except.ok v) :
    handleRequest tools "POST" (.ok request) =
      (⟨200, corsHeaders ++ [("Content-Type", "application/json")],
        some (.obj [("result", v)])⟩, [tool.name]) := by
  simp [handleRequest, hty, handleToolCallRequest, hfind, hp, hexec,
    isStr, corsHeaders, endRes, setHeader, initRes]

/-- Claim C1 witness: the echo tool returns its parameters verbatim. -/
theorem tool_call_success_ok_witness :
    handleRequest [echoTool] "POST" (.ok callEchoReq) =
      (⟨200, corsHeaders ++ [("Content-Type", "application/json")],
        some (.obj [("result", .obj [("x", .num 1)])])⟩, ["echo"]) :=
  tool_call_success_ok [echoTool] callEchoReq echoTool
    (some (.obj [("x", .num 1)])) (.obj [("x", .num 1)]) rfl rfl rfl rfl

/-- Claim C3: a tool-call whose `execute` rejects with failure `f` yields
status 500 and the error string
`"Error executing tool " ++ n ++ ": " ++ failureText f`, which contains
both the tool name (`tool.name = n`) and the failure's message text (its
string form when it is not an `Error`); the theorem holds for every
failure value, so a failure is always converted to this structured
response and never escapes the dispatcher. -/
theorem tool_call_failure_500 (tools : List McpTool) (request : Json)
    (tool : McpTool) (p : Option Json) (f : JsFailure) (n : String)
    (hty : request.getField "type" = JsAccess.val (.str "tool_call"))
    (hname : request.getProp "tool_name" = some (.str n))
    (hfind : tools.find?
      (fun t => jsStrEq t.name (some (.str n))) = some tool)
    (hp : request.getProp "parameters" = p)
    (hexec : tool.execute p = Except.error f) :
    handleRequest tools "POST" (.ok request) =
      (⟨500, corsHeaders,
        some (.obj [("error",
          .str ("Error executing tool " ++ n ++ ": "
                ++ failureText f))])⟩, [tool.name]) ∧
    tool.name = n := by
  constructor
  · simp [handleRequest, hty, handleToolCallRequest, hfind, hp, hexec,
      hname, isStr, jsUndefToString, jsToString, jsToStr,
      corsHeaders, endRes, setHeader, initRes]
  · have := List.find?_some hfind
    simpa [jsStrEq] using this

/-- Claim C3 witness: the failing tool yields the 500 envelope. -/
theorem tool_call_failure_500_witness :
    handleRequest [failTool] "POST" (.ok callBoomReq) =
      (⟨500, corsHeaders,
        some (.obj [("error",
          .str ("Error executing tool " ++ "boom" ++ ": "
                ++ failureText (.jsError "exploded")))])⟩, ["boom"]) ∧
    failTool.name = "boom" :=
  tool_call_failure_500 [failTool] callBoomReq failTool
    (some (.obj [])) (.jsError "exploded") "boom" rfl rfl rfl rfl rfl

/-- Claim C4: a tool-call whose `tool_name` matches no registered
tool's name yields status 404 with the message
`"Tool not found: " ++ n` naming that exact name, and no tool's
`execute` is invoked (empty log). -/
theorem tool_not_found_404 (tools : List McpTool) (request : Json)
    (n : String)
    (hty : request.getField "type" = JsAccess.val (.str "tool_call"))
    (hname : request.getProp "tool_name" = some (.str n))
    (hnone : ∀ t ∈ tools, t.name ≠ n) :
    handleRequest tools "POST" (.ok request) =
      (⟨404, corsHeaders,
        some (.obj [("error",
          .str ("Tool not found: " ++ n))])⟩, []) := by
  have hfind : tools.find?
      (fun t => jsStrEq t.name (some (Json.str n))) = none := by
    rw [List.find?_eq_none]
    intro t ht
    simp [jsStrEq, hnone t ht]
  simp [handleRequest, hty, handleToolCallRequest, hfind, hname, isStr,
    jsUndefToString, jsToString, jsToStr, corsHeaders, endRes,
    setHeader, initRes]

/-- Claim C4 witness: calling an unregistered name yields the 404. -/
theorem tool_not_found_404_witness :
    handleRequest [echoTool] "POST" (.ok callMissingReq) =
      (⟨404, corsHeaders,
        some (.obj [("error",
          .str ("Tool not found: " ++ "missing"))])⟩, []) :=
  tool_not_found_404 [echoTool] callMissingReq "missing" rfl rfl
    (by intro t ht; rw [List.mem_singleton] at ht; subst ht; decide)

/-- Claim C6: a parsed envelope whose `type` value is neither
`"capabilities"` nor `"tool_call"` yields status 400 with an error
naming the unrecognized type value (its JavaScript string coercion). -/
theorem unknown_type_400 (tools : List McpTool) (request : Json)
    (v : Json)
    (hty : request.getField "type" = JsAccess.val v)
    (hc : v ≠ Json.str "capabilities") (ht : v ≠ Json.str "tool_call") :
    handleRequest tools "POST" (.ok request) =
      (⟨400, corsHeaders,
        some (.obj [("error",
          .str ("Unknown request type: " ++ jsToString v))])⟩, []) := by
  simp [handleRequest, hty, isStr_eq_false hc, isStr_eq_false ht,
    corsHeaders, endRes, setHeader, initRes]

/-- Claim C6 witness: type `"bogus"` yields the 400 naming it. -/
theorem unknown_type_400_witness :
    handleRequest [echoTool] "POST"
        (.ok (.obj [("type", .str "bogus")])) =
      (⟨400, corsHeaders,
        some (.obj [("error",
          .str ("Unknown request type: "
                ++ jsToString (.str "bogus")))])⟩, []) :=
  unknown_type_400 [echoTool] (.obj [("type", .str "bogus")])
    (.str "bogus") rfl
    (by intro h; injection h with h2; exact absurd h2 (by decide))
    (by intro h; injection h with h2; exact absurd h2 (by decide))

/-- Claim C9: handling any request sequence leaves the server state —
in particular the registered tool list — unchanged, and every response
is computed from that request and the construction-time registry alone,
never from previously handled requests. -/
theorem registry_readonly_requests_independent (srv : McpServer)
    (reqs : List HttpRequest) :
    serveRequests srv reqs =
      (reqs.map (fun r => handleRequest srv.tools r.method r.body),
       srv) := by
  induction reqs with
  | nil => rfl
  | cons r rs ih => simp [serveRequests, McpServer.step, ih]

/-- Claim C10: construction accepts a registry with duplicate names
(the full list is held, nothing rejected), and a tool-call for the
duplicated name dispatches to the first tool with that name in
registration order, whatever tools follow it. -/
theorem duplicate_names_first_wins (cfg : McpServerConfig)
    (pre post : List McpTool) (t : McpTool) (request : Json) (n : String)
    (hty : request.getField "type" = JsAccess.val (.str "tool_call"))
    (hname : request.getProp "tool_name" = some (.str n))
    (htn : t.name = n)
    (hpre : ∀ u ∈ pre, u.name ≠ n) :
    (createMcpServer ⟨pre ++ t :: post, cfg⟩).tools = pre ++ t :: post ∧
    handleRequest (pre ++ t :: post) "POST" (.ok request) =
      (match t.execute (request.getProp "parameters") with
       | .ok v =>
          (⟨200, corsHeaders ++ [("Content-Type", "application/json")],
            some (.obj [("result", v)])⟩, [t.name])
       | .error f =>
          (⟨500, corsHeaders,
            some (.obj [("error",
              .str ("Error executing tool " ++ n ++ ": "
                    ++ failureText f))])⟩, [t.name])) := by
  refine ⟨rfl, ?_⟩
  have hfind : (pre ++ t :: post).find?
      (fun u => jsStrEq u.name (some (Json.str n))) = some t := by
    refine find_first_match _ pre post t ?_ ?_
    · intro u hu
      simp [jsStrEq, hpre u hu]
    · simp [jsStrEq, htn]
  cases hE : t.execute (request.getProp "parameters") with
  | ok v =>
      simp [handleRequest, hty, handleToolCallRequest, hname, hfind, hE,
        isStr, corsHeaders, endRes, setHeader, initRes,
        -List.find?_append]
  | error f =>
      simp [handleRequest, hty, handleToolCallRequest, hname, hfind, hE,
        isStr, jsUndefToString, jsToString, jsToStr, corsHeaders,
        endRes, setHeader, initRes, -List.find?_append]

/-- Claim C10 witness: with two tools named `echo`, the first one (the
echoing tool, not the shadowed duplicate) handles the call. -/
theorem duplicate_names_first_wins_witness :
    (createMcpServer ⟨[failTool] ++ echoTool :: [echoTool2],
      sampleConfig⟩).tools = [failTool] ++ echoTool :: [echoTool2] ∧
    handleRequest ([failTool] ++ echoTool :: [echoTool2]) "POST"
        (.ok callEchoReq) =
      (⟨200, corsHeaders ++ [("Content-Type", "application/json")],
        some (.obj [("result", .obj [("x", .num 1)])])⟩, ["echo"]) :=
  duplicate_names_first_wins sampleConfig [failTool] [echoTool2]
    echoTool callEchoReq "echo" rfl rfl rfl
    (by intro u hu; rw [List.mem_singleton] at hu; subst hu; decide)

end Walletwise
